import Mathlib

/-!
Verification of the trajectory conflict-detection engine of
`src/drone_deconfliction.py` (DroneVizSafe).

The Python source is shallowly embedded over the rationals: every float
becomes an exact `ℚ`, every numpy vector of length 3 becomes `ℚ × ℚ × ℚ`,
dictionaries become structures, and Python lists become `List`.  Because the
source's only irrational operation is the final `np.linalg.norm` (a square
root), the embedding carries *squared* distances throughout and embeds each
comparison `norm(v) < buffer` as `0 ≤ buffer ∧ normSq v < buffer ^ 2`, which
is equivalent (lemma `distLtBuffer_iff_sqrt_lt` below).  All definitions are
computable and follow the source line by line; line references are given in
the doc comments.
-/

namespace DroneViz

/-- Point in 3-space; the source uses `Waypoint = Tuple[float, float, float]`
for positions (line 24). -/
abbrev Pt : Type := ℚ × ℚ × ℚ

/-- Componentwise difference of two 3-vectors, as in `np.array(p) - np.array(q)`. -/
def vsub (p q : Pt) : Pt := (p.1 - q.1, p.2.1 - q.2.1, p.2.2 - q.2.2)

/-- Componentwise sum of two 3-vectors. -/
def vadd (p q : Pt) : Pt := (p.1 + q.1, p.2.1 + q.2.1, p.2.2 + q.2.2)

/-- Scalar multiple of a 3-vector. -/
def smul (c : ℚ) (p : Pt) : Pt := (c * p.1, c * p.2.1, c * p.2.2)

/-- Dot product `np.dot` of two 3-vectors. -/
def dot (p q : Pt) : ℚ := p.1 * q.1 + p.2.1 * q.2.1 + p.2.2 * q.2.2

/-- Squared Euclidean norm; the source's `np.linalg.norm dP` is `sqrt (normSq dP)`. -/
def normSq (p : Pt) : ℚ := dot p p

/-- Waypoint record `{x, y, z, time}` (source lines 62, 24). -/
structure Waypoint where
  x : ℚ
  y : ℚ
  z : ℚ
  time : ℚ
deriving DecidableEq

/-- Position triple of a waypoint, `(wp["x"], wp["y"], wp["z"])`. -/
def Waypoint.pos (w : Waypoint) : Pt := (w.x, w.y, w.z)

/-- Mission time window `{"start": ..., "end": ...}` (source line 53).  The
field `end` is a Lean keyword, hence `endTime`. -/
structure TimeWindow where
  start : ℚ
  endTime : ℚ
deriving DecidableEq

/-- Primary mission `{"waypoints": [...], "time_window": {...}}` (source lines 43-56). -/
structure Mission where
  waypoints : List Waypoint
  time_window : TimeWindow
deriving DecidableEq

/-- Other drone schedule `{"drone_id": ..., "waypoints": [...]}` (source lines 68-74).
The loader guarantees `drone_id` is present, so `schedule.get("drone_id",
"unknown")` in the source always yields this field. -/
structure Schedule where
  drone_id : String
  waypoints : List Waypoint
deriving DecidableEq

/-- Minimum of `wp["time"]` over a trajectory, `min(wp["time"] for wp in ...)`
(source lines 137, 168).  Python's `min` raises on an empty list; the claims
only quantify over non-empty trajectories (the loader rejects empty ones), and
on `[]` this embedding returns the junk value `0`. -/
def minTime : List Waypoint → ℚ
  | [] => 0
  | w :: ws => ws.foldl (fun m v => min m v.time) w.time

/-- Maximum of `wp["time"]` over a trajectory, `max(wp["time"] for wp in ...)`
(source lines 138, 169); junk value `0` on `[]` as for `minTime`. -/
def maxTime : List Waypoint → ℚ
  | [] => 0
  | w :: ws => ws.foldl (fun m v => max m v.time) w.time

/-- Consecutive waypoint pairs with their index: `segsFrom i [w0, w1, w2] =
[(i, w0, w1), (i+1, w1, w2)]`.  This is the iteration
`for i in range(len(wps) - 1)` over `(wps[i], wps[i+1])` (source lines 144-147,
178-182), made explicit. -/
def segsFrom : Nat → List Waypoint → List (Nat × Waypoint × Waypoint)
  | _, [] => []
  | _, [_] => []
  | i, w1 :: w2 :: rest => (i, w1, w2) :: segsFrom (i + 1) (w2 :: rest)

/-- Indexed consecutive-waypoint segments of a trajectory. -/
def segs (wps : List Waypoint) : List (Nat × Waypoint × Waypoint) :=
  segsFrom 0 wps

/-- Epsilon `1e-10` of the parallel-segment test (source line 109). -/
def segEps : ℚ := 1 / 10 ^ 10

/-- Comparison `dist < safety_buffer` of the source (lines 154, 185), phrased
on the squared distance: `sqrt dSq < b` iff `0 ≤ b ∧ dSq < b ^ 2` (for the
nonnegative squared distances the engine produces; see
`distLtBuffer_iff_sqrt_lt`). -/
def distLtBuffer (dSq safety_buffer : ℚ) : Prop :=
  0 ≤ safety_buffer ∧ dSq < safety_buffer ^ 2

instance (dSq b : ℚ) : Decidable (distLtBuffer dSq b) :=
  inferInstanceAs (Decidable (0 ≤ b ∧ dSq < b ^ 2))

/-- Squared closest distance between the finite 3D segments `[p1, p2]` and
`[q1, q2]`: the square of the source's `closest_distance_between_segments`
(lines 94-120), translated verbatim (dot products `a` .. `e`, denominator `D`,
parallel branch when `D < 1e-10` choosing `d / b` when `b > c` else `e / c`,
unconditional clamp of both parameters to `[0, 1]`), with the final
`np.linalg.norm dP` replaced by `dot dP dP`.  Division by zero is the junk
total `ℚ` division `x / 0 = 0`; it is hit exactly when `q1 = q2` (then
`c = 0`, `b = 0` and the branch computes `e / c = 0 / 0`), where numpy yields
`tc = nan` and Python's clamp then yields `tc = 1.0`; since `v = 0` there,
`tc` is multiplied by the zero vector and the returned distance agrees with
this embedding either way. -/
def closest_distance_sq_between_segments (p1 p2 q1 q2 : Pt) : ℚ :=
  let u := vsub p2 p1
  let v := vsub q2 q1
  let w := vsub p1 q1
  let a := dot u u
  let b := dot u v
  let c := dot v v
  let d := dot u w
  let e := dot v w
  let D := a * c - b * b
  let sc := if D < segEps then 0 else (b * e - c * d) / D
  let tc := if D < segEps then (if b > c then d / b else e / c) else (a * e - b * d) / D
  let sc := max 0 (min 1 sc)
  let tc := max 0 (min 1 tc)
  let dP := vsub (vadd w (smul sc u)) (smul tc v)
  dot dP dP

/-- Denominator `a*c - b*b` deciding the parallel branch (source line 106). -/
def segDenomD (p1 p2 q1 q2 : Pt) : ℚ :=
  let u := vsub p2 p1
  let v := vsub q2 q1
  dot u u * dot v v - dot u v * dot u v

/-- Denominator of the division actually performed in the parallel branch
`d / b if b > c else e / c` (source line 111): `b` when `b > c`, else `c`. -/
def segParallelDenom (p1 p2 q1 q2 : Pt) : ℚ :=
  let u := vsub p2 p1
  let v := vsub q2 q1
  if dot u v > dot v v then dot u v else dot v v

/-- Interpolated drone position between two waypoints at time `t`, source
lines 122-132: returns `wp1`'s position when the two times are equal,
otherwise linearly blends with the fraction clamped to `[0, 1]`. -/
def interpolate_position (wp1 wp2 : Waypoint) (t : ℚ) : Pt :=
  if wp1.time = wp2.time then (wp1.x, wp1.y, wp1.z)
  else
    let frac := (t - wp1.time) / (wp2.time - wp1.time)
    let frac := max 0 (min 1 frac)
    (wp1.x + frac * (wp2.x - wp1.x),
     wp1.y + frac * (wp2.y - wp1.y),
     wp1.z + frac * (wp2.z - wp1.z))

/-- Spatial conflict record as appended in source lines 155-161. -/
structure SpatialRecord where
  segment_mission : Nat × Nat
  segment_schedule : Nat × Nat
  distanceSq : ℚ
  location : Pt
  time_range : ℚ × ℚ
deriving DecidableEq

/-- Body of the inner spatial loop (source lines 147-161) for one mission
segment `m` and one schedule segment `s`: when the two segments' own time
spans overlap (`max(t1_m, t1_s) <= min(t2_m, t2_s)`) and the kernel distance
is below the buffer, the conflict record is produced; otherwise nothing. -/
def spatialPair (safety_buffer : ℚ) (m s : Nat × Waypoint × Waypoint) : Option SpatialRecord :=
  if max m.2.1.time s.2.1.time ≤ min m.2.2.time s.2.2.time then
    let p1 := m.2.1.pos
    let p2 := m.2.2.pos
    let q1 := s.2.1.pos
    let q2 := s.2.2.pos
    let dSq := closest_distance_sq_between_segments p1 p2 q1 q2
    if distLtBuffer dSq safety_buffer then
      some { segment_mission := (m.1, m.1 + 1),
             segment_schedule := (s.1, s.1 + 1),
             distanceSq := dSq,
             location := ((p1.1 + p2.1) / 2, (p1.2.1 + p2.2.1) / 2, (p1.2.2 + p2.2.2) / 2),
             time_range := (max m.2.1.time s.2.1.time, min m.2.2.time s.2.2.time) }
    else none
  else none

/-- Body of the outer spatial loop (source lines 144-161) for one mission
segment `m`: scan all schedule segments against it in index order. -/
def spatialRow (safety_buffer : ℚ) (ssegs : List (Nat × Waypoint × Waypoint))
    (m : Nat × Waypoint × Waypoint) : List SpatialRecord :=
  ssegs.filterMap (spatialPair safety_buffer m)

/-- Spatial conflict check, source lines 134-162: prune when the schedule's
overall time span misses the window, else scan every mission-segment x
schedule-segment pair in index order. -/
def check_spatial_conflict (mission : Mission) (schedule : Schedule)
    (time_window : TimeWindow) (safety_buffer : ℚ) : List SpatialRecord :=
  if maxTime schedule.waypoints < time_window.start ∨
      minTime schedule.waypoints > time_window.endTime then []
  else
    (segs mission.waypoints).flatMap (spatialRow safety_buffer (segs schedule.waypoints))

/-- Temporal conflict record as appended in source lines 189-194. -/
structure TemporalRecord where
  time : ℚ
  location : Pt
  distanceSq : ℚ
  drone_id : String
deriving DecidableEq

/-- Rounding of Python's `round(x)` (banker's rounding, used with 2 decimals
at source line 186): nearest integer, ties to the even one.  Exact model of
`round` on the rational values themselves (the source applies it to their
float images). -/
def roundHalfEven (q : ℚ) : ℤ :=
  if q - ⌊q⌋ < 1 / 2 then ⌊q⌋
  else if 1 / 2 < q - ⌊q⌋ then ⌊q⌋ + 1
  else if ⌊q⌋ % 2 = 0 then ⌊q⌋ else ⌊q⌋ + 1

/-- Python's `round(x, 2)` (source line 186). -/
def round2 (q : ℚ) : ℚ := (roundHalfEven (q * 100) : ℚ) / 100

/-- Deduplication key `pos_key = (round(pos_m[0], 2), round(pos_m[1], 2),
round(pos_m[2], 2), round(t, 2))` of source line 186, recomputed from the
record's raw location and time. -/
def dedupKey (r : TemporalRecord) : ℚ × ℚ × ℚ × ℚ :=
  (round2 r.location.1, round2 r.location.2.1, round2 r.location.2.2, round2 r.time)

/-- Ten evenly spaced sample instants, `np.linspace(lo, hi, num=10)`
(source line 174): `lo + (hi - lo) * k / 9` for `k = 0 .. 9`, endpoints
included exactly. -/
def linspace10 (lo hi : ℚ) : List ℚ :=
  (List.range 10).map fun k => lo + (hi - lo) * k / 9

/-- Body of the inner temporal loop (source lines 181-185) for sample instant
`t`, mission position `pos_m` and one schedule segment `s`: when `s`'s time
interval contains `t` and the interpolated positions are closer than the
buffer, the candidate record of lines 189-194 is produced (deduplication is
applied afterwards by `dedupByKey`). -/
def temporalPair (schedule : Schedule) (safety_buffer t : ℚ) (pos_m : Pt)
    (s : Nat × Waypoint × Waypoint) : Option TemporalRecord :=
  if s.2.1.time ≤ t ∧ t ≤ s.2.2.time then
    let pos_s := interpolate_position s.2.1 s.2.2 t
    let dSq := normSq (vsub pos_m pos_s)
    if distLtBuffer dSq safety_buffer then
      some { time := t, location := pos_m, distanceSq := dSq,
             drone_id := schedule.drone_id }
    else none
  else none

/-- Body of the mission-segment temporal loop (source lines 178-194) for one
sample instant `t` and one mission segment `m`: when `m`'s time interval
contains `t`, interpolate the mission position once and scan all schedule
segments; otherwise nothing. -/
def temporalRow (schedule : Schedule) (safety_buffer t : ℚ)
    (m : Nat × Waypoint × Waypoint) : List TemporalRecord :=
  if m.2.1.time ≤ t ∧ t ≤ m.2.2.time then
    (segs schedule.waypoints).filterMap
      (temporalPair schedule safety_buffer t (interpolate_position m.2.1 m.2.2 t))
  else []

/-- Candidate emissions at one sample instant `t` (source lines 178-194). -/
def temporalAt (mission : Mission) (schedule : Schedule) (safety_buffer t : ℚ) :
    List TemporalRecord :=
  (segs mission.waypoints).flatMap (temporalRow schedule safety_buffer t)

/-- All candidate emissions of the temporal scan (source lines 177-194
without the `seen_positions` suppression), in loop order: sample instants
outermost, then mission segments (those whose time interval contains `t`),
then schedule segments. -/
def temporalCandidates (mission : Mission) (schedule : Schedule)
    (time_window : TimeWindow) (safety_buffer : ℚ) : List TemporalRecord :=
  (linspace10 (max time_window.start (minTime schedule.waypoints))
      (min time_window.endTime (maxTime schedule.waypoints))).flatMap
    (temporalAt mission schedule safety_buffer)

/-- The `seen_positions` suppression of source lines 175, 186-188: keep a
candidate iff its rounded key was not seen before, threading the mutable set
through the scan in emission order. -/
def dedupByKey (seen : List (ℚ × ℚ × ℚ × ℚ)) : List TemporalRecord → List TemporalRecord
  | [] => []
  | r :: rs =>
    if dedupKey r ∈ seen then dedupByKey seen rs
    else r :: dedupByKey (dedupKey r :: seen) rs

/-- Temporal conflict check, source lines 164-195: prune when the schedule's
overall time span misses the window, else sample ten instants across the
intersection of the window and the schedule's span, scan all containing
segment pairs and suppress duplicates by rounded key. -/
def check_temporal_conflict (mission : Mission) (schedule : Schedule)
    (time_window : TimeWindow) (safety_buffer : ℚ) : List TemporalRecord :=
  if maxTime schedule.waypoints < time_window.start ∨
      minTime schedule.waypoints > time_window.endTime then []
  else dedupByKey [] (temporalCandidates mission schedule time_window safety_buffer)

/-- Tagged conflict record of `check_mission_safety` (source lines 203-207):
spatial records are extended with the drone id and tag `spatial`, temporal
records already carry the drone id and get tag `temporal`. -/
inductive ConflictRecord where
  | spatial (drone_id : String) (r : SpatialRecord)
  | temporal (r : TemporalRecord)
deriving DecidableEq

/-- Type tag `"spatial"` or `"temporal"` of a tagged record (source lines 205, 207). -/
def ConflictRecord.typeTag : ConflictRecord → String
  | .spatial _ _ => "spatial"
  | .temporal _ => "temporal"

/-- Owning drone identifier of a tagged record (source lines 193, 204). -/
def ConflictRecord.droneId : ConflictRecord → String
  | .spatial i _ => i
  | .temporal r => r.drone_id

/-- Squared reported distance of a tagged record. -/
def ConflictRecord.distSq : ConflictRecord → ℚ
  | .spatial _ r => r.distanceSq
  | .temporal r => r.distanceSq

/-- Result of `check_mission_safety` (source lines 209-212). -/
structure MissionSafetyResult where
  status : String
  details : List ConflictRecord
deriving DecidableEq

/-- Tagged contribution of one other schedule (source lines 200-208):
spatial records first (extended with the drone id and tag `spatial`), then
temporal records (tag `temporal`). -/
def taggedConflicts (mission : Mission) (safety_buffer : ℚ) (schedule : Schedule) :
    List ConflictRecord :=
  (check_spatial_conflict mission schedule mission.time_window safety_buffer).map
    (ConflictRecord.spatial schedule.drone_id)
  ++ (check_temporal_conflict mission schedule mission.time_window safety_buffer).map
    ConflictRecord.temporal

/-- Mission safety check, source lines 197-212: for each other schedule in
input order, run the spatial then the temporal check against the mission's
own time window, tag the records, and concatenate; status is `clear` exactly
when no record was produced. -/
def check_mission_safety (mission : Mission) (schedules : List Schedule)
    (safety_buffer : ℚ) : MissionSafetyResult :=
  let conflicts := schedules.flatMap (taggedConflicts mission safety_buffer)
  { status := if conflicts = [] then "clear" else "conflict detected",
    details := conflicts }

/-- First element of the segment list whose time interval contains `t`.
Modelled from the spec: used only by `check_temporal_conflict_first`, the
rendering of the claim that at each sample instant the *first* containing
segment wins. -/
def firstContaining (t : ℚ) : List (Nat × Waypoint × Waypoint) → Option (Nat × Waypoint × Waypoint)
  | [] => none
  | s :: rest => if s.2.1.time ≤ t ∧ t ≤ s.2.2.time then some s else firstContaining t rest

/-- Modelled from the spec: the temporal check as the claim describes it,
where for each sample instant only the first mission segment and the first
schedule segment whose time intervals contain the instant are used to
interpolate and possibly emit, with the same buffer test and rounded-key
deduplication.  Compared against the actual `check_temporal_conflict`
(which scans all containing pairs) to settle the claim. -/
def firstMatchAt (mission : Mission) (schedule : Schedule) (safety_buffer t : ℚ) :
    List TemporalRecord :=
  match firstContaining t (segs mission.waypoints),
      firstContaining t (segs schedule.waypoints) with
  | some m, some s =>
    (temporalPair schedule safety_buffer t (interpolate_position m.2.1 m.2.2 t) s).toList
  | _, _ => []

/-- Modelled from the spec: full first-match temporal check, to be compared
with `check_temporal_conflict`. -/
def check_temporal_conflict_first (mission : Mission) (schedule : Schedule)
    (time_window : TimeWindow) (safety_buffer : ℚ) : List TemporalRecord :=
  if maxTime schedule.waypoints < time_window.start ∨
      minTime schedule.waypoints > time_window.endTime then []
  else
    dedupByKey [] ((linspace10 (max time_window.start (minTime schedule.waypoints))
        (min time_window.endTime (maxTime schedule.waypoints))).flatMap
      (firstMatchAt mission schedule safety_buffer))

/-! Concrete inputs used by the claim-specific theorems below. -/

/-- Mission of the concrete scenario of spec section 8: waypoints
`[(0,0,0,t=0), (100,0,0,t=10)]`, window `[0, 10]`. -/
def mission2 : Mission := ⟨[⟨0,0,0,0⟩, ⟨100,0,0,10⟩], ⟨0,10⟩⟩

/-- Other drone of the concrete scenario: waypoints `[(0,5,0,t=0), (100,5,0,t=10)]`. -/
def sched2 : Schedule := ⟨"D2", [⟨0,5,0,0⟩, ⟨100,5,0,10⟩]⟩

/-- The spatial record the concrete scenario produces at buffer 10. -/
def rec2 : SpatialRecord := ⟨(0,1), (0,1), 25, (50,0,0), (0,10)⟩

/-- Mission used against the single-waypoint schedule: `(0,0,0)` to `(9,0,0)`
over `[0, 9]`, window `[0, 9]`. -/
def mission3 : Mission := ⟨[⟨0,0,0,0⟩, ⟨9,0,0,9⟩], ⟨0,9⟩⟩

/-- Single-waypoint schedule sitting at `(5,1,0)` at time 5: inside the
window, 1 unit from the mission's interpolated position `(5,0,0)` there. -/
def sched3 : Schedule := ⟨"D3", [⟨5,1,0,5⟩]⟩

/-- Mission stationary at the origin over `[0, 9]`, window `[0, 9]`. -/
def mission5 : Mission := ⟨[⟨0,0,0,0⟩, ⟨0,0,0,9⟩], ⟨0,9⟩⟩

/-- Schedule that jumps at `t = 5` (equal consecutive times) from `(100,0,0)`
to `(0,3,0)`: at the sample instant 5 its first containing segment is still
the far one. -/
def sched5 : Schedule := ⟨"D5", [⟨100,0,0,0⟩, ⟨100,0,0,5⟩, ⟨0,3,0,5⟩, ⟨0,3,0,9⟩]⟩

/-- Mission stationary at the origin over `[0, 9]`, window `[0, 9]`. -/
def mission9 : Mission := ⟨[⟨0,0,0,0⟩, ⟨0,0,0,9⟩], ⟨0,9⟩⟩

/-- Schedule that jumps at `t = 5` (equal consecutive times) from `(10,0,0)`
to `(3,0,0)`: at distance 10 before the jump and 3 after it. -/
def sched9 : Schedule := ⟨"D9", [⟨10,0,0,0⟩, ⟨10,0,0,5⟩, ⟨3,0,0,5⟩, ⟨3,0,0,9⟩]⟩

/-- Mission whose waypoint times `[50, 60]` lie entirely after its own window
`[0, 10]`. -/
def mission10 : Mission := ⟨[⟨0,0,0,50⟩, ⟨10,0,0,60⟩], ⟨0,10⟩⟩

/-- Schedule spanning times `[5, 100]` (so its overall span intersects the
window `[0, 10]`), one unit away from the mission path. -/
def sched10 : Schedule := ⟨"D10", [⟨0,1,0,5⟩, ⟨10,1,0,100⟩]⟩

/-- The spatial record produced for `mission10` / `sched10` at buffer 2: its
time range `(50, 60)` lies entirely outside the window `[0, 10]`. -/
def rec10 : SpatialRecord := ⟨(0,1), (0,1), 1, (5,0,0), (50,60)⟩

/-- Mission along the x-axis over `[0, 9]` used for the monotonicity witness. -/
def missionW9 : Mission := ⟨[⟨0,0,0,0⟩, ⟨9,0,0,9⟩], ⟨0,9⟩⟩

/-- Schedule one unit away from `missionW9`, same timing. -/
def schedW9 : Schedule := ⟨"W9", [⟨0,1,0,0⟩, ⟨9,1,0,9⟩]⟩

/-- The spatial record produced for `missionW9` / `schedW9` at buffer 5. -/
def recW9 : SpatialRecord := ⟨(0,1), (0,1), 1, (9/2,0,0), (0,9)⟩

/-- Mission with window `[0, 10]` used for the disjoint-span witness. -/
def mission6 : Mission := ⟨[⟨0,0,0,0⟩, ⟨1,0,0,1⟩], ⟨0,10⟩⟩

/-- Schedule sitting exactly on the mission path but at time 100, after the
window. -/
def sched6 : Schedule := ⟨"D6", [⟨0,0,0,100⟩]⟩

/-! Supporting lemmas (shared; none of these is a claim theorem). -/

/-- Squared norms are nonnegative. -/
theorem normSq_nonneg (p : Pt) : 0 ≤ normSq p :=
  add_nonneg (add_nonneg (mul_self_nonneg _) (mul_self_nonneg _)) (mul_self_nonneg _)

/-- Faithfulness of the squared comparison: on the nonnegative squared
distances the engine produces, `distLtBuffer dSq b` says exactly that the
source's `sqrt dSq < b` holds. -/
theorem distLtBuffer_iff_sqrt_lt (dSq b : ℚ) (h : 0 ≤ dSq) :
    distLtBuffer dSq b ↔ Real.sqrt (dSq : ℝ) < (b : ℝ) := by
  constructor
  · rintro ⟨hb, hlt⟩
    rcases eq_or_lt_of_le hb with hb0 | hb0
    · exact absurd hlt (by rw [← hb0]; simpa using not_lt.mpr h)
    · refine (Real.sqrt_lt' (by exact_mod_cast hb0)).mpr ?_
      exact_mod_cast hlt
  · intro hlt
    have hb : (0 : ℝ) < (b : ℝ) := lt_of_le_of_lt (Real.sqrt_nonneg _) hlt
    refine ⟨by exact_mod_cast le_of_lt hb, ?_⟩
    exact_mod_cast (Real.sqrt_lt' hb).mp hlt

/-- A closed sanity instance of `distLtBuffer_iff_sqrt_lt` at `dSq = 25`,
`b = 10`. -/
theorem distLtBuffer_iff_sqrt_lt_inst :
    (0 : ℚ) ≤ 25 ∧ (distLtBuffer 25 10 ↔ Real.sqrt ((25 : ℚ) : ℝ) < ((10 : ℚ) : ℝ)) :=
  ⟨by norm_num, distLtBuffer_iff_sqrt_lt 25 10 (by norm_num)⟩

/-- The buffer comparison is monotone in the buffer. -/
theorem distLtBuffer_mono {B B' dSq : ℚ} (hBB : B ≤ B') (h : distLtBuffer dSq B) :
    distLtBuffer dSq B' :=
  ⟨le_trans h.1 hBB, lt_of_lt_of_le h.2 (pow_le_pow_left₀ h.1 hBB 2)⟩

theorem dedupByKey_sublist (seen : List (ℚ × ℚ × ℚ × ℚ)) (l : List TemporalRecord) :
    (dedupByKey seen l).Sublist l := by
  induction l generalizing seen with
  | nil => simp [dedupByKey]
  | cons r rs ih =>
    rw [dedupByKey]
    split
    · exact (ih seen).cons r
    · exact (ih (dedupKey r :: seen)).cons₂ r

theorem mem_of_mem_dedupByKey {seen : List (ℚ × ℚ × ℚ × ℚ)} {l : List TemporalRecord}
    {r : TemporalRecord} (h : r ∈ dedupByKey seen l) : r ∈ l :=
  (dedupByKey_sublist seen l).subset h

theorem dedupByKey_nil_iff (l : List TemporalRecord) :
    dedupByKey [] l = [] ↔ l = [] := by
  cases l <;> simp [dedupByKey]

theorem dedupByKey_keys_nodup (l : List TemporalRecord) :
    ∀ seen : List (ℚ × ℚ × ℚ × ℚ),
      ((dedupByKey seen l).map dedupKey).Nodup ∧
      ∀ r ∈ dedupByKey seen l, dedupKey r ∉ seen := by
  induction l with
  | nil => intro seen; simp [dedupByKey]
  | cons r rs ih =>
    intro seen
    rw [dedupByKey]
    split
    · exact ih seen
    · rename_i hmem
      obtain ⟨ih1, ih2⟩ := ih (dedupKey r :: seen)
      refine ⟨?_, ?_⟩
      · simp only [List.map_cons, List.nodup_cons]
        refine ⟨?_, ih1⟩
        intro hk
        obtain ⟨r', hr', hkeq⟩ := List.mem_map.mp hk
        exact (ih2 r' hr') (hkeq ▸ List.mem_cons_self _ _)
      · intro r' hr'
        rcases List.mem_cons.mp hr' with hr'eq | hr'mem
        · exact hr'eq ▸ hmem
        · exact fun hs => (ih2 r' hr'mem) (List.mem_cons_of_mem _ hs)

/-- Status words of the result (source line 210) are distinct. -/
theorem clear_ne_conflict : "clear" ≠ "conflict detected" := by decide

/-- Shared characterisation of the status string (source lines 209-212). -/
theorem check_mission_safety_status_iff (mission : Mission) (schedules : List Schedule)
    (safety_buffer : ℚ) :
    ((check_mission_safety mission schedules safety_buffer).status = "conflict detected" ↔
      (check_mission_safety mission schedules safety_buffer).details ≠ []) ∧
    ((check_mission_safety mission schedules safety_buffer).status = "clear" ↔
      (check_mission_safety mission schedules safety_buffer).details = []) := by
  have hd : (check_mission_safety mission schedules safety_buffer).details
      = schedules.flatMap (taggedConflicts mission safety_buffer) := rfl
  have hs : (check_mission_safety mission schedules safety_buffer).status
      = if schedules.flatMap (taggedConflicts mission safety_buffer) = []
        then "clear" else "conflict detected" := rfl
  rw [hd, hs]
  by_cases h : schedules.flatMap (taggedConflicts mission safety_buffer) = []
  · rw [if_pos h]
    exact ⟨⟨fun hc => absurd hc clear_ne_conflict, fun hne => absurd h hne⟩,
      ⟨fun _ => h, fun _ => rfl⟩⟩
  · rw [if_neg h]
    exact ⟨⟨fun _ => h, fun _ => rfl⟩,
      ⟨fun hc => absurd hc.symm clear_ne_conflict, fun hc => absurd hc h⟩⟩

/-! Claim theorems. -/

/-- C7: for every pair of 3D points `p1, p2` (including `p1 = p2`), the
segment-distance kernel applied to a segment and itself returns 0 (here: the
squared distance returns 0, equivalently the source's distance is 0). -/
theorem closest_distance_sq_self_zero (p1 p2 : Pt) :
    closest_distance_sq_between_segments p1 p2 p1 p2 = 0 := by
  obtain ⟨x1, y1, z1⟩ := p1
  obtain ⟨x2, y2, z2⟩ := p2
  norm_num [closest_distance_sq_between_segments, vsub, vadd, smul, dot, segEps]

/-- C4: evaluation at the failing input `p1 = (0,0,0)`, `p2 = (1,0,0)`,
`q1 = q2 = (0,1,0)` (the second segment a single point): the parallel branch
is taken (`D = 0 < 1e-10`), the selected denominator (`b` if `b > c` else `c`)
is exactly `0`, so the source divides `e / c = 0 / 0` — in numpy a `0.0/0.0`
division by exactly zero producing `nan` — contrary to the claim that the
denominator is never exactly zero.  The final conjunct evaluates the embedded
kernel (junk division `0 / 0 = 0`) at that input: the returned squared
distance is still the point-to-segment distance 1, because the parameter fed
by the division multiplies the zero direction vector. -/
theorem parallel_branch_divides_by_zero_on_point_segment :
    segDenomD (0,0,0) (1,0,0) (0,1,0) (0,1,0) < segEps ∧
    segParallelDenom (0,0,0) (1,0,0) (0,1,0) (0,1,0) = 0 ∧
    closest_distance_sq_between_segments (0,0,0) (1,0,0) (0,1,0) (0,1,0) = 1 := by
  norm_num [segDenomD, segParallelDenom, closest_distance_sq_between_segments,
    vsub, vadd, smul, dot, segEps]

/-- C8: interpolation endpoints: equal waypoint times always give `wp1`'s
position; otherwise the interpolation is exact at `wp1.time`, `wp2.time` and
the midpoint time, and (for increasing times) the fraction clamp pins times
at or before the segment to `wp1`'s position and times at or after it to
`wp2`'s position. -/
theorem interpolate_position_spec (wp1 wp2 : Waypoint) :
    (wp1.time = wp2.time → ∀ t : ℚ, interpolate_position wp1 wp2 t = wp1.pos) ∧
    (wp1.time ≠ wp2.time →
      interpolate_position wp1 wp2 wp1.time = wp1.pos ∧
      interpolate_position wp1 wp2 wp2.time = wp2.pos ∧
      interpolate_position wp1 wp2 ((wp1.time + wp2.time) / 2)
        = ((wp1.x + wp2.x) / 2, (wp1.y + wp2.y) / 2, (wp1.z + wp2.z) / 2) ∧
      (wp1.time < wp2.time → ∀ t : ℚ,
        (t ≤ wp1.time → interpolate_position wp1 wp2 t = wp1.pos) ∧
        (wp2.time ≤ t → interpolate_position wp1 wp2 t = wp2.pos))) := by
  constructor
  · intro h t
    simp [interpolate_position, h, Waypoint.pos]
  · intro h
    have hne : wp2.time - wp1.time ≠ 0 := sub_ne_zero.mpr (Ne.symm h)
    refine ⟨?_, ?_, ?_, ?_⟩
    · norm_num [interpolate_position, h, Waypoint.pos]
    · norm_num [interpolate_position, h, Waypoint.pos, div_self hne]
    · have hfrac : ((wp1.time + wp2.time) / 2 - wp1.time) / (wp2.time - wp1.time)
          = 1 / 2 := by
        rw [div_eq_iff hne]; ring
      norm_num [interpolate_position, h, Waypoint.pos, hfrac, Prod.ext_iff]
      exact ⟨by ring, by ring, by ring⟩
    · intro hlt t
      have hpos : 0 < wp2.time - wp1.time := sub_pos.mpr hlt
      constructor
      · intro hle
        have hfr : (t - wp1.time) / (wp2.time - wp1.time) ≤ 0 :=
          div_nonpos_iff.mpr (Or.inr ⟨sub_nonpos.mpr hle, le_of_lt hpos⟩)
        have h1 : min 1 ((t - wp1.time) / (wp2.time - wp1.time))
            = (t - wp1.time) / (wp2.time - wp1.time) :=
          min_eq_right (le_trans hfr zero_le_one)
        have h2 : max 0 ((t - wp1.time) / (wp2.time - wp1.time)) = 0 := max_eq_left hfr
        norm_num [interpolate_position, h, Waypoint.pos, h1, h2]
      · intro hge
        have hfr : 1 ≤ (t - wp1.time) / (wp2.time - wp1.time) :=
          (one_le_div hpos).mpr (sub_le_sub_right hge _)
        have h1 : min 1 ((t - wp1.time) / (wp2.time - wp1.time)) = 1 := min_eq_left hfr
        norm_num [interpolate_position, h, Waypoint.pos, h1, Prod.ext_iff]

/-- C8 witness: the interpolation properties evaluated on the concrete
waypoints `(0,0,0,t=0)` and `(10,4,6,t=2)` and, for the clamp, `t = -1` and
`t = 5`. -/
theorem interpolate_position_spec_witness :
    (0 : ℚ) ≠ 2 ∧
    interpolate_position ⟨0,0,0,0⟩ ⟨10,4,6,2⟩ 0 = (0,0,0) ∧
    interpolate_position ⟨0,0,0,0⟩ ⟨10,4,6,2⟩ 2 = (10,4,6) ∧
    interpolate_position ⟨0,0,0,0⟩ ⟨10,4,6,2⟩ 1 = (5,2,3) ∧
    interpolate_position ⟨0,0,0,0⟩ ⟨10,4,6,2⟩ (-1) = (0,0,0) ∧
    interpolate_position ⟨0,0,0,0⟩ ⟨10,4,6,2⟩ 5 = (10,4,6) := by
  have h := (interpolate_position_spec ⟨0,0,0,0⟩ ⟨10,4,6,2⟩).2 (by norm_num)
  have hc := h.2.2.2 (by norm_num)
  refine ⟨by norm_num, h.1, h.2.1, ?_, (hc (-1)).1 (by norm_num), (hc 5).2 (by norm_num)⟩
  have := h.2.2.1
  norm_num at this
  exact this

set_option maxHeartbeats 4000000 in
/-- C2: the concrete scenario.  With buffer 10 the status is
`conflict detected` and the details contain a spatial record of distance 5
(squared distance `5 ^ 2`); with buffer 4 the status is `clear` and the
details are empty. -/
theorem concrete_scenario_buffers :
    (check_mission_safety mission2 [sched2] 10).status = "conflict detected" ∧
    (∃ c ∈ (check_mission_safety mission2 [sched2] 10).details,
      c.typeTag = "spatial" ∧ c.distSq = 5 ^ 2) ∧
    (check_mission_safety mission2 [sched2] 4).status = "clear" ∧
    (check_mission_safety mission2 [sched2] 4).details = [] := by
  have hdet : (check_mission_safety mission2 [sched2] 10).details
      = ConflictRecord.spatial "D2" rec2 ::
        [ConflictRecord.temporal ⟨0, (0,0,0), 25, "D2"⟩,
         ConflictRecord.temporal ⟨10/9, (100/9,0,0), 25, "D2"⟩,
         ConflictRecord.temporal ⟨20/9, (200/9,0,0), 25, "D2"⟩,
         ConflictRecord.temporal ⟨10/3, (100/3,0,0), 25, "D2"⟩,
         ConflictRecord.temporal ⟨40/9, (400/9,0,0), 25, "D2"⟩,
         ConflictRecord.temporal ⟨50/9, (500/9,0,0), 25, "D2"⟩,
         ConflictRecord.temporal ⟨20/3, (200/3,0,0), 25, "D2"⟩,
         ConflictRecord.temporal ⟨70/9, (700/9,0,0), 25, "D2"⟩,
         ConflictRecord.temporal ⟨80/9, (800/9,0,0), 25, "D2"⟩,
         ConflictRecord.temporal ⟨10, (100,0,0), 25, "D2"⟩] := by
    norm_num [mission2, sched2, rec2, check_mission_safety, taggedConflicts,
      check_spatial_conflict, spatialRow, spatialPair, check_temporal_conflict,
      temporalCandidates, temporalAt, temporalRow, temporalPair, segs, segsFrom,
      minTime, maxTime, linspace10, interpolate_position,
      closest_distance_sq_between_segments, vsub, vadd, smul, dot, segEps, normSq,
      distLtBuffer, dedupByKey, dedupKey, round2, roundHalfEven, Waypoint.pos,
      List.range_succ, List.filterMap_cons, List.filterMap_nil]
  have hdet4 : (check_mission_safety mission2 [sched2] 4).details = [] := by
    norm_num [mission2, sched2, check_mission_safety, taggedConflicts,
      check_spatial_conflict, spatialRow, spatialPair, check_temporal_conflict,
      temporalCandidates, temporalAt, temporalRow, temporalPair, segs, segsFrom,
      minTime, maxTime, linspace10, interpolate_position,
      closest_distance_sq_between_segments, vsub, vadd, smul, dot, segEps, normSq,
      distLtBuffer, dedupByKey, dedupKey, round2, roundHalfEven, Waypoint.pos,
      List.range_succ, List.filterMap_cons, List.filterMap_nil]
  refine ⟨(check_mission_safety_status_iff _ _ _).1.mpr
      (by rw [hdet]; exact List.cons_ne_nil _ _),
    ⟨ConflictRecord.spatial "D2" rec2, by rw [hdet]; exact List.mem_cons_self _ _,
      rfl, by norm_num [ConflictRecord.distSq, rec2]⟩,
    (check_mission_safety_status_iff _ _ _).2.mpr hdet4, hdet4⟩

/-- A successful `temporalPair` emission carries the schedule's drone id. -/
theorem temporalPair_some_drone_id {schedule : Schedule} {b t : ℚ} {pm : Pt}
    {s : Nat × Waypoint × Waypoint} {r : TemporalRecord}
    (h : temporalPair schedule b t pm s = some r) : r.drone_id = schedule.drone_id := by
  simp only [temporalPair] at h
  split at h
  · split at h
    · cases h; rfl
    · cases h
  · cases h

/-- Membership in the temporal candidate list, unfolded to the scan structure. -/
theorem mem_temporalCandidates_iff {mission : Mission} {schedule : Schedule}
    {tw : TimeWindow} {buf : ℚ} {r : TemporalRecord} :
    r ∈ temporalCandidates mission schedule tw buf ↔
    ∃ t ∈ linspace10 (max tw.start (minTime schedule.waypoints))
        (min tw.endTime (maxTime schedule.waypoints)),
      ∃ m ∈ segs mission.waypoints, (m.2.1.time ≤ t ∧ t ≤ m.2.2.time) ∧
        ∃ s ∈ segs schedule.waypoints,
          temporalPair schedule buf t (interpolate_position m.2.1 m.2.2 t) s = some r := by
  unfold temporalCandidates temporalAt temporalRow
  simp only [List.mem_flatMap]
  constructor
  · rintro ⟨t, ht, m, hm, hr⟩
    refine ⟨t, ht, m, hm, ?_⟩
    by_cases hc : m.2.1.time ≤ t ∧ t ≤ m.2.2.time
    · rw [if_pos hc] at hr
      obtain ⟨s, hs, hp⟩ := List.mem_filterMap.mp hr
      exact ⟨hc, s, hs, hp⟩
    · rw [if_neg hc] at hr
      exact absurd hr (List.not_mem_nil r)
  · rintro ⟨t, ht, m, hm, hc, s, hs, hp⟩
    exact ⟨t, ht, m, hm, by rw [if_pos hc]; exact List.mem_filterMap.mpr ⟨s, hs, hp⟩⟩

/-- Every record of the temporal check carries the schedule's drone id. -/
theorem check_temporal_drone_id {mission : Mission} {schedule : Schedule}
    {tw : TimeWindow} {buf : ℚ} {r : TemporalRecord}
    (h : r ∈ check_temporal_conflict mission schedule tw buf) :
    r.drone_id = schedule.drone_id := by
  unfold check_temporal_conflict at h
  split at h
  · exact absurd h (List.not_mem_nil r)
  · obtain ⟨t, _, m, _, _, s, _, hp⟩ :=
      mem_temporalCandidates_iff.mp (mem_of_mem_dedupByKey h)
    exact temporalPair_some_drone_id hp

/-- C1: for every mission, schedule list and buffer, the status is
`conflict detected` iff the details are non-empty (and `clear` iff empty);
the details are exactly, in order, the per-schedule concatenation (in input
order) of the spatial records (in segment-pair scan order, tagged `spatial`
and extended with the drone id) followed by the temporal records (tagged
`temporal`); and every record carries a type tag in `{spatial, temporal}`
and the drone id of one of the input schedules. -/
theorem check_mission_safety_spec (mission : Mission) (schedules : List Schedule)
    (safety_buffer : ℚ) :
    ((check_mission_safety mission schedules safety_buffer).status = "conflict detected" ↔
      (check_mission_safety mission schedules safety_buffer).details ≠ []) ∧
    ((check_mission_safety mission schedules safety_buffer).status = "clear" ↔
      (check_mission_safety mission schedules safety_buffer).details = []) ∧
    ((check_mission_safety mission schedules safety_buffer).details =
      schedules.flatMap fun schedule =>
        (check_spatial_conflict mission schedule mission.time_window safety_buffer).map
          (ConflictRecord.spatial schedule.drone_id)
        ++ (check_temporal_conflict mission schedule mission.time_window safety_buffer).map
          ConflictRecord.temporal) ∧
    ∀ c ∈ (check_mission_safety mission schedules safety_buffer).details,
      c.droneId ∈ schedules.map Schedule.drone_id ∧
      (c.typeTag = "spatial" ∨ c.typeTag = "temporal") := by
  refine ⟨(check_mission_safety_status_iff mission schedules safety_buffer).1,
    (check_mission_safety_status_iff mission schedules safety_buffer).2, rfl, ?_⟩
  intro c hc
  have hc' : c ∈ schedules.flatMap (taggedConflicts mission safety_buffer) := hc
  obtain ⟨s, hs, hcs⟩ := List.mem_flatMap.mp hc'
  unfold taggedConflicts at hcs
  rcases List.mem_append.mp hcs with hsp | htp
  · obtain ⟨rsp, _, rfl⟩ := List.mem_map.mp hsp
    exact ⟨List.mem_map_of_mem Schedule.drone_id hs, Or.inl rfl⟩
  · obtain ⟨rtp, hrtp, rfl⟩ := List.mem_map.mp htp
    have hid := check_temporal_drone_id hrtp
    refine ⟨?_, Or.inr rfl⟩
    show rtp.drone_id ∈ schedules.map Schedule.drone_id
    rw [hid]
    exact List.mem_map_of_mem Schedule.drone_id hs

set_option maxHeartbeats 4000000 in
/-- C1 witness: the specification evaluated on the concrete scenario input,
with the head spatial record of the details discharging the membership
hypothesis. -/
theorem check_mission_safety_spec_witness :
    (check_mission_safety mission2 [sched2] 10).status = "conflict detected" ∧
    (ConflictRecord.spatial "D2" rec2).droneId ∈ [sched2].map Schedule.drone_id ∧
    ((ConflictRecord.spatial "D2" rec2).typeTag = "spatial" ∨
      (ConflictRecord.spatial "D2" rec2).typeTag = "temporal") := by
  have h := check_mission_safety_spec mission2 [sched2] 10
  have hmem : ConflictRecord.spatial "D2" rec2
      ∈ (check_mission_safety mission2 [sched2] 10).details := by
    norm_num [mission2, sched2, rec2, check_mission_safety, taggedConflicts,
      check_spatial_conflict, spatialRow, spatialPair, check_temporal_conflict,
      temporalCandidates, temporalAt, temporalRow, temporalPair, segs, segsFrom,
      minTime, maxTime, linspace10, interpolate_position,
      closest_distance_sq_between_segments, vsub, vadd, smul, dot, segEps, normSq,
      distLtBuffer, dedupByKey, dedupKey, round2, roundHalfEven, Waypoint.pos,
      List.range_succ, List.filterMap_cons, List.filterMap_nil]
  exact ⟨h.1.mpr (List.ne_nil_of_mem hmem), (h.2.2.2 _ hmem).1, (h.2.2.2 _ hmem).2⟩

/-- C3 (amended): a single-waypoint other trajectory yields no conflict
record at all: both loops run over `range(len(waypoints) - 1)`, so it has no
segments in the spatial *and* in the temporal check, and the temporal check
never interpolates its stationary position. -/
theorem single_waypoint_no_records (mission : Mission) (tw : TimeWindow) (buf : ℚ)
    (did : String) (w : Waypoint) :
    check_spatial_conflict mission ⟨did, [w]⟩ tw buf = [] ∧
    check_temporal_conflict mission ⟨did, [w]⟩ tw buf = [] := by
  constructor
  · unfold check_spatial_conflict
    split
    · rfl
    · rw [List.flatMap_eq_nil_iff]
      intro m _
      rfl
  · unfold check_temporal_conflict
    split
    · rfl
    · rw [dedupByKey_nil_iff]
      unfold temporalCandidates
      rw [List.flatMap_eq_nil_iff]
      intro t _
      unfold temporalAt
      rw [List.flatMap_eq_nil_iff]
      intro m _
      unfold temporalRow
      split
      · rfl
      · rfl

/-- C3 counterexample: a concrete input meeting all the claim's conditions —
the single waypoint's time 5 lies inside the window `[0, 9]`, and its
stationary position `(5,1,0)` is within the buffer 3 of the mission's
interpolated position `(5,0,0)` at that instant — yet `check_temporal_conflict`
returns no record (and the spatial check none either): the claimed temporal
record for a single-waypoint trajectory never exists. -/
theorem single_waypoint_inside_window_no_temporal_record :
    mission3.time_window.start ≤ 5 ∧ (5 : ℚ) ≤ mission3.time_window.endTime ∧
    interpolate_position ⟨0,0,0,0⟩ ⟨9,0,0,9⟩ 5 = (5,0,0) ∧
    distLtBuffer (normSq (vsub (5,0,0) (5,1,0))) 3 ∧
    check_temporal_conflict mission3 sched3 mission3.time_window 3 = [] ∧
    check_spatial_conflict mission3 sched3 mission3.time_window 3 = [] := by
  norm_num [mission3, sched3, check_spatial_conflict, spatialRow, spatialPair,
    check_temporal_conflict, temporalCandidates, temporalAt, temporalRow, temporalPair,
    segs, segsFrom, minTime, maxTime, linspace10, interpolate_position, normSq, vsub, dot,
    distLtBuffer, dedupByKey, List.range_succ, List.filterMap_cons, List.filterMap_nil]

/-- C6: when every other trajectory's overall time span misses the mission's
window (span end strictly before the window start, or span start strictly
after the window end), the result is `clear` with empty details, regardless
of positions. -/
theorem disjoint_time_span_clear (mission : Mission) (schedules : List Schedule) (buf : ℚ)
    (h : ∀ s ∈ schedules, s.waypoints ≠ [] ∧
      (maxTime s.waypoints < mission.time_window.start ∨
        minTime s.waypoints > mission.time_window.endTime)) :
    (check_mission_safety mission schedules buf).status = "clear" ∧
    (check_mission_safety mission schedules buf).details = [] := by
  have hnil : (check_mission_safety mission schedules buf).details = [] := by
    show schedules.flatMap (taggedConflicts mission buf) = []
    rw [List.flatMap_eq_nil_iff]
    intro s hs
    have hp := (h s hs).2
    unfold taggedConflicts check_spatial_conflict check_temporal_conflict
    rw [if_pos hp, if_pos hp]
    rfl
  exact ⟨(check_mission_safety_status_iff mission schedules buf).2.mpr hnil, hnil⟩

/-- C6 witness: a schedule sitting exactly on the mission path but with its
whole time span after the window still yields `clear` and empty details. -/
theorem disjoint_time_span_clear_witness :
    (check_mission_safety mission6 [sched6] 50).status = "clear" ∧
    (check_mission_safety mission6 [sched6] 50).details = [] :=
  disjoint_time_span_clear mission6 [sched6] 50 (by
    intro s hs
    rw [List.mem_singleton] at hs
    subst hs
    norm_num [sched6, mission6, minTime, maxTime])

/-- C10: the spatial check consults the mission window only for the
whole-trajectory prune.  On `mission10` / `sched10` the schedule's overall
span `[5, 100]` intersects the window `[0, 10]`, and the emitted spatial
record's time range `(50, 60)` lies entirely outside the window (both
endpoints above the window end). -/
theorem spatial_record_outside_window :
    mission10.time_window.start ≤ maxTime sched10.waypoints ∧
    minTime sched10.waypoints ≤ mission10.time_window.endTime ∧
    check_spatial_conflict mission10 sched10 mission10.time_window 2 = [rec10] ∧
    mission10.time_window.endTime < rec10.time_range.1 ∧
    mission10.time_window.endTime < rec10.time_range.2 := by
  norm_num [mission10, sched10, rec10, check_spatial_conflict, spatialRow, spatialPair,
    segs, segsFrom, minTime, maxTime, closest_distance_sq_between_segments, vsub, vadd,
    smul, dot, segEps, distLtBuffer, Waypoint.pos, List.filterMap_cons, List.filterMap_nil]

/-- C5 (amended): the temporal check scans *all* containing segment pairs in
index order (not just the first ones) and suppresses duplicates only through
the rounded (mission position, instant) key: its output is a sublist of the
full candidate scan `temporalCandidates` (so records appear in scan order),
and the emitted records have pairwise distinct rounded keys. -/
theorem temporal_scan_dedup (mission : Mission) (schedule : Schedule)
    (tw : TimeWindow) (buf : ℚ) :
    (check_temporal_conflict mission schedule tw buf).Sublist
      (temporalCandidates mission schedule tw buf) ∧
    ((check_temporal_conflict mission schedule tw buf).map dedupKey).Nodup := by
  unfold check_temporal_conflict
  split
  · exact ⟨List.nil_sublist _, by simp⟩
  · exact ⟨dedupByKey_sublist [] _, (dedupByKey_keys_nodup _ []).1⟩

set_option maxHeartbeats 4000000 in
/-- C5 counterexample: on `mission5` / `sched5` with buffer 5, at the sample
instant 5 the first schedule segment containing the instant is the far
segment 0 (no emission), and the record at instant 5 is emitted by the later
segment 2 — the actual `check_temporal_conflict` output contains a record at
time 5, while the modelled first-match-wins check
`check_temporal_conflict_first` produces none at time 5: the claim that
later containing segments contribute no record is false. -/
theorem temporal_not_first_match :
    check_temporal_conflict mission5 sched5 mission5.time_window 5 =
      [⟨5,(0,0,0),9,"D5"⟩, ⟨6,(0,0,0),9,"D5"⟩, ⟨7,(0,0,0),9,"D5"⟩,
       ⟨8,(0,0,0),9,"D5"⟩, ⟨9,(0,0,0),9,"D5"⟩] ∧
    check_temporal_conflict_first mission5 sched5 mission5.time_window 5 =
      [⟨6,(0,0,0),9,"D5"⟩, ⟨7,(0,0,0),9,"D5"⟩, ⟨8,(0,0,0),9,"D5"⟩,
       ⟨9,(0,0,0),9,"D5"⟩] := by
  constructor <;>
  norm_num [mission5, sched5, check_temporal_conflict, check_temporal_conflict_first,
    temporalCandidates, temporalAt, temporalRow, temporalPair, firstMatchAt,
    firstContaining, segs, segsFrom, minTime, maxTime, linspace10, interpolate_position,
    normSq, vsub, dot, distLtBuffer, dedupByKey, dedupKey, round2, roundHalfEven,
    Option.toList, List.range_succ, List.filterMap_cons, List.filterMap_nil]

/-- Monotonicity in the buffer of a single spatial pair emission. -/
theorem spatialPair_mono {B B' : ℚ} (hBB : B ≤ B') {m s : Nat × Waypoint × Waypoint}
    {r : SpatialRecord} (h : spatialPair B m s = some r) : spatialPair B' m s = some r := by
  simp only [spatialPair] at h ⊢
  split at h
  · rename_i hov
    rw [if_pos hov]
    split at h
    · rename_i hd
      rw [if_pos (distLtBuffer_mono hBB hd)]
      exact h
    · cases h
  · cases h

/-- Monotonicity in the buffer of a single temporal pair emission. -/
theorem temporalPair_mono {B B' : ℚ} (hBB : B ≤ B') {schedule : Schedule} {t : ℚ}
    {pm : Pt} {s : Nat × Waypoint × Waypoint} {r : TemporalRecord}
    (h : temporalPair schedule B t pm s = some r) : temporalPair schedule B' t pm s = some r := by
  simp only [temporalPair] at h ⊢
  split at h
  · rename_i hct
    rw [if_pos hct]
    split at h
    · rename_i hd
      rw [if_pos (distLtBuffer_mono hBB hd)]
      exact h
    · cases h
  · cases h

/-- Every spatial record found at buffer `B` is also found at any `B' ≥ B`. -/
theorem check_spatial_conflict_mono (mission : Mission) (schedule : Schedule)
    (tw : TimeWindow) {B B' : ℚ} (hBB : B ≤ B') {r : SpatialRecord}
    (h : r ∈ check_spatial_conflict mission schedule tw B) :
    r ∈ check_spatial_conflict mission schedule tw B' := by
  unfold check_spatial_conflict at h ⊢
  by_cases hp : maxTime schedule.waypoints < tw.start ∨ minTime schedule.waypoints > tw.endTime
  · rw [if_pos hp] at h
    exact absurd h (List.not_mem_nil r)
  · rw [if_neg hp] at h ⊢
    simp only [spatialRow, List.mem_flatMap, List.mem_filterMap] at h ⊢
    obtain ⟨m, hm, s, hs, hp2⟩ := h
    exact ⟨m, hm, s, hs, spatialPair_mono hBB hp2⟩

/-- Temporal candidates are monotone in the buffer. -/
theorem temporalCandidates_mono (mission : Mission) (schedule : Schedule)
    (tw : TimeWindow) {B B' : ℚ} (hBB : B ≤ B') {r : TemporalRecord}
    (h : r ∈ temporalCandidates mission schedule tw B) :
    r ∈ temporalCandidates mission schedule tw B' := by
  rw [mem_temporalCandidates_iff] at h ⊢
  obtain ⟨t, ht, m, hm, hc, s, hs, hp⟩ := h
  exact ⟨t, ht, m, hm, hc, s, hs, temporalPair_mono hBB hp⟩

/-- If the temporal check emits anything at buffer `B`, it emits something at
any `B' ≥ B` (the emitted records themselves may differ: the dedup key can be
claimed by an earlier, more distant pair). -/
theorem check_temporal_conflict_ne_nil_mono (mission : Mission) (schedule : Schedule)
    (tw : TimeWindow) {B B' : ℚ} (hBB : B ≤ B')
    (h : check_temporal_conflict mission schedule tw B ≠ []) :
    check_temporal_conflict mission schedule tw B' ≠ [] := by
  unfold check_temporal_conflict at h ⊢
  by_cases hp : maxTime schedule.waypoints < tw.start ∨ minTime schedule.waypoints > tw.endTime
  · rw [if_pos hp] at h
    exact absurd rfl h
  · rw [if_neg hp] at h ⊢
    intro hnil
    rw [dedupByKey_nil_iff] at hnil
    have hBne : temporalCandidates mission schedule tw B ≠ [] := by
      intro hc
      exact h (by rw [dedupByKey_nil_iff]; exact hc)
    obtain ⟨r, hr⟩ := List.exists_mem_of_ne_nil _ hBne
    exact List.ne_nil_of_mem (temporalCandidates_mono mission schedule tw hBB hr) hnil

/-- An empty tagged contribution at the larger buffer forces an empty one at
the smaller buffer. -/
theorem taggedConflicts_eq_nil_mono (mission : Mission) {B B' : ℚ} (hBB : B ≤ B')
    (s : Schedule) (h : taggedConflicts mission B' s = []) :
    taggedConflicts mission B s = [] := by
  unfold taggedConflicts at h ⊢
  rw [List.append_eq_nil] at h ⊢
  obtain ⟨h1, h2⟩ := h
  rw [List.map_eq_nil_iff] at h1 h2
  rw [List.map_eq_nil_iff, List.map_eq_nil_iff]
  constructor
  · by_contra hne
    obtain ⟨r, hr⟩ := List.exists_mem_of_ne_nil _ hne
    exact List.ne_nil_of_mem
      (check_spatial_conflict_mono mission s mission.time_window hBB hr) h1
  · by_contra hne
    exact check_temporal_conflict_ne_nil_mono mission s mission.time_window hBB hne h2

/-- C9 (amended): for fixed trajectories the verdict is monotone in the
buffer — `conflict detected` at `B` implies `conflict detected` at any
`B' ≥ B` — and every *spatial* record produced at `B` is also produced at
`B'`.  (Temporal records are not record-monotone; see the counterexample.) -/
theorem conflict_monotone_in_buffer (mission : Mission) (schedules : List Schedule)
    {B B' : ℚ} (hBB : B ≤ B') :
    ((check_mission_safety mission schedules B).status = "conflict detected" →
      (check_mission_safety mission schedules B').status = "conflict detected") ∧
    ∀ schedule : Schedule,
      ∀ r ∈ check_spatial_conflict mission schedule mission.time_window B,
        r ∈ check_spatial_conflict mission schedule mission.time_window B' := by
  constructor
  · intro hst
    have hd := (check_mission_safety_status_iff mission schedules B).1.mp hst
    refine (check_mission_safety_status_iff mission schedules B').1.mpr fun hnil => hd ?_
    show schedules.flatMap (taggedConflicts mission B) = []
    have hnil' : schedules.flatMap (taggedConflicts mission B') = [] := hnil
    rw [List.flatMap_eq_nil_iff] at hnil' ⊢
    exact fun s hs => taggedConflicts_eq_nil_mono mission hBB s (hnil' s hs)
  · intro schedule r hr
    exact check_spatial_conflict_mono mission schedule mission.time_window hBB hr

set_option maxHeartbeats 4000000 in
/-- C9 witness: on `missionW9` / `schedW9`, a conflict at buffer 5 still
holds at buffer 20, and the buffer-5 spatial record is also a buffer-20
spatial record. -/
theorem conflict_monotone_in_buffer_witness :
    (check_mission_safety missionW9 [schedW9] 20).status = "conflict detected" ∧
    recW9 ∈ check_spatial_conflict missionW9 schedW9 missionW9.time_window 20 := by
  have h := @conflict_monotone_in_buffer missionW9 [schedW9] 5 20 (by norm_num)
  have hmem : recW9 ∈ check_spatial_conflict missionW9 schedW9 missionW9.time_window 5 := by
    norm_num [missionW9, schedW9, recW9, check_spatial_conflict, spatialRow, spatialPair,
      segs, segsFrom, minTime, maxTime, closest_distance_sq_between_segments, vsub, vadd,
      smul, dot, segEps, distLtBuffer, Waypoint.pos, List.filterMap_cons, List.filterMap_nil]
  have hst : (check_mission_safety missionW9 [schedW9] 5).status = "conflict detected" := by
    refine (check_mission_safety_status_iff _ _ _).1.mpr
      (List.ne_nil_of_mem (a := ConflictRecord.spatial "W9" recW9) ?_)
    show ConflictRecord.spatial "W9" recW9
        ∈ [schedW9].flatMap (taggedConflicts missionW9 5)
    rw [List.mem_flatMap]
    refine ⟨schedW9, List.mem_singleton_self _, ?_⟩
    unfold taggedConflicts
    exact List.mem_append_left _ (List.mem_map_of_mem _ hmem)
  exact ⟨h.1 hst, h.2 schedW9 recW9 hmem⟩

set_option maxHeartbeats 8000000 in
/-- C9 counterexample: on `mission9` / `sched9` with buffers 5 ≤ 20, the
temporal record at time 5 with squared distance 9 is produced at buffer 5 but
not at buffer 20 — at the larger buffer the earlier, more distant segment
pair (squared distance 100) claims the rounded dedup key `(0,0,0,5)` first,
so the buffer-20 details contain a different record at time 5 and the
buffer-5 record is absent, refuting record-level monotonicity. -/
theorem temporal_record_lost_at_larger_buffer :
    (5 : ℚ) ≤ 20 ∧
    ConflictRecord.temporal ⟨5,(0,0,0),9,"D9"⟩
      ∈ (check_mission_safety mission9 [sched9] 5).details ∧
    (check_mission_safety mission9 [sched9] 5).details =
      [ConflictRecord.spatial "D9" ⟨(0,1),(1,2),9,(0,0,0),(5,5)⟩,
       ConflictRecord.spatial "D9" ⟨(0,1),(2,3),9,(0,0,0),(5,9)⟩,
       ConflictRecord.temporal ⟨5,(0,0,0),9,"D9"⟩,
       ConflictRecord.temporal ⟨6,(0,0,0),9,"D9"⟩,
       ConflictRecord.temporal ⟨7,(0,0,0),9,"D9"⟩,
       ConflictRecord.temporal ⟨8,(0,0,0),9,"D9"⟩,
       ConflictRecord.temporal ⟨9,(0,0,0),9,"D9"⟩] ∧
    (check_mission_safety mission9 [sched9] 20).details =
      [ConflictRecord.spatial "D9" ⟨(0,1),(0,1),100,(0,0,0),(0,5)⟩,
       ConflictRecord.spatial "D9" ⟨(0,1),(1,2),9,(0,0,0),(5,5)⟩,
       ConflictRecord.spatial "D9" ⟨(0,1),(2,3),9,(0,0,0),(5,9)⟩,
       ConflictRecord.temporal ⟨0,(0,0,0),100,"D9"⟩,
       ConflictRecord.temporal ⟨1,(0,0,0),100,"D9"⟩,
       ConflictRecord.temporal ⟨2,(0,0,0),100,"D9"⟩,
       ConflictRecord.temporal ⟨3,(0,0,0),100,"D9"⟩,
       ConflictRecord.temporal ⟨4,(0,0,0),100,"D9"⟩,
       ConflictRecord.temporal ⟨5,(0,0,0),100,"D9"⟩,
       ConflictRecord.temporal ⟨6,(0,0,0),9,"D9"⟩,
       ConflictRecord.temporal ⟨7,(0,0,0),9,"D9"⟩,
       ConflictRecord.temporal ⟨8,(0,0,0),9,"D9"⟩,
       ConflictRecord.temporal ⟨9,(0,0,0),9,"D9"⟩] := by
  refine ⟨by norm_num, ?_, ?_, ?_⟩ <;>
  norm_num [mission9, sched9, check_mission_safety, taggedConflicts,
    check_spatial_conflict, spatialRow, spatialPair, check_temporal_conflict,
    temporalCandidates, temporalAt, temporalRow, temporalPair, segs, segsFrom,
    minTime, maxTime, linspace10, interpolate_position,
    closest_distance_sq_between_segments, vsub, vadd, smul, dot, segEps, normSq,
    distLtBuffer, dedupByKey, dedupKey, round2, roundHalfEven, Waypoint.pos,
    List.range_succ, List.filterMap_cons, List.filterMap_nil]

end DroneViz

